import Mathlib

/-!
# RTP / RTCP packetisation of `rtp_opus.cpp`

A shallow embedding of the packetisation and session-state layer of
`src/rtp_opus.cpp`: the two wire-format builders (`RTPHeader::create`,
`RTCPSenderReport::create`), the session counters of `RTPStreamer` and its
`sendRTPPacket` member, followed by theorems about them.

Modelling conventions.

* Machine integers are `Nat` (unsigned) or `Int` (signed) with explicit
  reduction modulo `2^w` wherever the C++ arithmetic can wrap.
* The host byte order is a parameter `le : Bool` (`true` for the
  `__LITTLE_ENDIAN` branch of the `#if`, `false` for `__BIG_ENDIAN`).  The
  memory image of a packed struct is the list of its bytes in address order.
  Bit-fields are laid out as GCC does: from the least significant bit of the
  byte on a little-endian host, from the most significant bit on a big-endian
  host.
* The transport (`sendto`) and the clock (`clock_gettime`) are inputs of a
  call: the value `sendto` returns on each socket and the `timespec` read.
* An exception is an `Outcome.threw`; the session state at the moment of the
  throw is part of the result.
-/

namespace RtpOpus

/-! ## Constants (lines 14-22) -/

def PCM_FRAME_SIZE : Nat := 1152
def OPUS_FRAME_SIZE : Nat := 480
def MAX_PACKET_SIZE : Nat := 1500

/-! ## Host byte order: `htons`, `htonl` and integer stores -/

/-- The libc `htons`: identity on a big-endian host, byte swap on a
little-endian one.  The argument is converted to `uint16_t`. -/
def htons (le : Bool) (v : Nat) : Nat :=
  if le then (v % 256) * 256 + v / 256 % 256 else v % 65536

/-- The libc `htonl`: identity on a big-endian host, byte reversal on a
little-endian one.  The argument is converted to `uint32_t`. -/
def htonl (le : Bool) (v : Nat) : Nat :=
  if le then
    (v % 256) * 16777216 + (v / 256 % 256) * 65536 + (v / 65536 % 256) * 256
      + v / 16777216 % 256
  else v % 4294967296

/-- Memory image of a `uint16_t` object, lowest address first. -/
def storeU16 (le : Bool) (v : Nat) : List Nat :=
  if le then [v % 256, v / 256 % 256] else [v / 256 % 256, v % 256]

/-- Memory image of a `uint32_t` object, lowest address first. -/
def storeU32 (le : Bool) (v : Nat) : List Nat :=
  if le then [v % 256, v / 256 % 256, v / 65536 % 256, v / 16777216 % 256]
  else [v / 16777216 % 256, v / 65536 % 256, v / 256 % 256, v % 256]

/-! ## Big-endian wire encodings (the vocabulary of the specification) -/

/-- Big-endian (network order) encoding of a 16-bit value. -/
def be16 (v : Nat) : List Nat := [v / 256 % 256, v % 256]

/-- Big-endian (network order) encoding of a 32-bit value. -/
def be32 (v : Nat) : List Nat :=
  [v / 16777216 % 256, v / 65536 % 256, v / 256 % 256, v % 256]

/-- Value of a byte string read as a big-endian integer. -/
def fromBE (bs : List Nat) : Nat := bs.foldl (fun acc b => acc * 256 + b) 0

/-! ## `RTPHeader` (lines 24-60) -/

/-- The packed struct `RTPHeader::rtp_header`; each field holds the value
stored in it (bit-fields are reduced to their width on assignment). -/
structure rtp_header where
  version : Nat
  p : Nat
  x : Nat
  cc : Nat
  m : Nat
  pt : Nat
  seq_num : Nat
  timestamp : Nat
  ssrc : Nat
  deriving DecidableEq, Repr

/-- The first octet of `rtp_header`: `cc:4, x:1, p:1, version:2` allocated from
the least significant bit (little-endian branch), or `version:2, p:1, x:1,
cc:4` allocated from the most significant bit (big-endian branch). -/
def rtp_header.octet0 (le : Bool) (h : rtp_header) : Nat :=
  if le then h.cc + 16 * h.x + 32 * h.p + 64 * h.version
  else h.version * 64 + h.p * 32 + h.x * 16 + h.cc

/-- The second octet of `rtp_header`: `pt:7, m:1` from the least significant
bit, or `m:1, pt:7` from the most significant bit. -/
def rtp_header.octet1 (le : Bool) (h : rtp_header) : Nat :=
  if le then h.pt + 128 * h.m else h.m * 128 + h.pt

/-- Memory image of the packed `rtp_header`, which is what
`memcpy(packet, &header, sizeof(header))` copies. -/
def rtp_header.bytes (le : Bool) (h : rtp_header) : List Nat :=
  [h.octet0 le, h.octet1 le] ++ storeU16 le h.seq_num ++ storeU32 le h.timestamp
    ++ storeU32 le h.ssrc

/-- The value of `sizeof(rtp_header)`: 1 + 1 + 2 + 4 + 4, packed. -/
def sizeof_rtp_header : Nat := 12

/-- The function `RTPHeader::create` (lines 49-59).  The parameters are
`unsigned short seq_num`, `unsigned int timestamp`, `unsigned int ssrc`. -/
def RTPHeader.create (le : Bool) (seq_num timestamp ssrc : Nat) : rtp_header :=
  { version := 2 % 4
    p := 0 % 2
    x := 0 % 2
    cc := 0 % 16
    m := 0 % 2
    pt := 111 % 128
    seq_num := htons le seq_num
    timestamp := htonl le timestamp
    ssrc := htonl le ssrc }

/-! ## `RTCPSenderReport` (lines 62-106) -/

/-- The `struct timespec` filled in by `clock_gettime`; `tv_sec` is a
`time_t` and `tv_nsec` a `long`, both signed 64-bit. -/
structure timespec where
  tv_sec : Int
  tv_nsec : Int
  deriving DecidableEq, Repr

/-- The packed struct `RTCPSenderReport::rtcp_sr`. -/
structure rtcp_sr where
  version : Nat
  p : Nat
  rc : Nat
  pt : Nat
  length : Nat
  ssrc : Nat
  ntp_timestamp_msw : Nat
  ntp_timestamp_lsw : Nat
  rtp_timestamp : Nat
  sender_packet_count : Nat
  sender_octet_count : Nat
  deriving DecidableEq, Repr

/-- The first octet of `rtcp_sr`: `rc:5, p:1, version:2` from the least
significant bit, or `version:2, p:1, rc:5` from the most significant bit. -/
def rtcp_sr.octet0 (le : Bool) (sr : rtcp_sr) : Nat :=
  if le then sr.rc + 32 * sr.p + 64 * sr.version
  else sr.version * 64 + sr.p * 32 + sr.rc

/-- Memory image of the packed `rtcp_sr`, which is what
`sendto(rtcp_sockfd, &sr, sizeof(sr), ...)` transmits. -/
def rtcp_sr.bytes (le : Bool) (sr : rtcp_sr) : List Nat :=
  [sr.octet0 le, sr.pt % 256] ++ storeU16 le sr.length ++ storeU32 le sr.ssrc
    ++ storeU32 le sr.ntp_timestamp_msw ++ storeU32 le sr.ntp_timestamp_lsw
    ++ storeU32 le sr.rtp_timestamp ++ storeU32 le sr.sender_packet_count
    ++ storeU32 le sr.sender_octet_count

/-- Conversion of a signed 64-bit value to `uint64_t`. -/
def toU64 (v : Int) : Nat := (v % 18446744073709551616).toNat

/-- The local `ntp_time` of `RTCPSenderReport::create` (lines 97-98):
`((uint64_t)(now.tv_sec + 2208988800ULL) << 32) |
 ((uint64_t)now.tv_nsec * 0x100000000ULL / 1000000000ULL)`, all in `uint64_t`. -/
def ntp_time (now : timespec) : Nat :=
  (((toU64 now.tv_sec + 2208988800) % 18446744073709551616) <<< 32
      % 18446744073709551616)
    ||| (toU64 now.tv_nsec * 4294967296 % 18446744073709551616 / 1000000000)

/-- The function `RTCPSenderReport::create` (lines 86-105); the reading of
`clock_gettime(CLOCK_REALTIME, &now)` is the argument `now`.  Every field of
the struct is assigned after the `memset`, so no zeroed byte remains. -/
def RTCPSenderReport.create (le : Bool) (ssrc rtp_timestamp packet_count octet_count : Nat)
    (now : timespec) : rtcp_sr :=
  { version := 2 % 4
    p := 0 % 2
    rc := 0 % 32
    pt := 200
    length := htons le 6
    ssrc := htonl le ssrc
    ntp_timestamp_msw := htonl le ((ntp_time now >>> 32) % 4294967296)
    ntp_timestamp_lsw := htonl le ((ntp_time now &&& 4294967295) % 4294967296)
    rtp_timestamp := htonl le rtp_timestamp
    sender_packet_count := htonl le packet_count
    sender_octet_count := htonl le octet_count }

/-! ## `RTPStreamer` (lines 183-250) -/

/-- The session counters of `RTPStreamer` (lines 187-191): `seq_num` is an
`unsigned short`, the other four are `unsigned int`.  The two sockets and
their destination addresses are represented by the transport inputs of a
call. -/
structure RTPStreamer where
  seq_num : Nat
  timestamp : Nat
  ssrc : Nat
  packet_count : Nat
  octet_count : Nat
  deriving DecidableEq, Repr

/-- Every counter is within the range of its C++ type. -/
def RTPStreamer.InRange (s : RTPStreamer) : Prop :=
  s.seq_num < 65536 ∧ s.timestamp < 4294967296 ∧ s.ssrc < 4294967296 ∧
    s.packet_count < 4294967296 ∧ s.octet_count < 4294967296

instance (s : RTPStreamer) : Decidable s.InRange := by
  unfold RTPStreamer.InRange; infer_instance

/-- The member initialiser list of the constructor (line 195); `rnd` is the
value `rand()` returns. -/
def RTPStreamer.init (rnd : Nat) : RTPStreamer :=
  { seq_num := rnd % 65535 % 65536
    timestamp := 0
    ssrc := 12345
    packet_count := 0
    octet_count := 0 }

/-- The socket a datagram is handed to. -/
inductive Sock where
  | rtp_sockfd
  | rtcp_sockfd
  deriving DecidableEq, Repr

/-- A datagram accepted by `sendto`. -/
structure Datagram where
  sock : Sock
  bytes : List Nat
  deriving DecidableEq, Repr

/-- The inputs one `sendRTPPacket` call takes from its environment: the value
`sendto` returns on the RTP socket, the value it returns on the RTCP socket
(read only when a report is due), and the `clock_gettime` reading. -/
structure Env where
  rtp_sendto : Int
  rtcp_sendto : Int
  now : timespec
  deriving DecidableEq, Repr

/-- How a call ends: a normal return, or a `std::runtime_error` with its
message. -/
inductive Outcome where
  | returned
  | threw (what : String)
  deriving DecidableEq, Repr

/-- What a call leaves behind: the session counters, the datagrams the
transport accepted (oldest first), how the call ended, and whether a `memcpy`
wrote past the end of the local `packet[1500]`. -/
structure Result where
  state : RTPStreamer
  sent : List Datagram
  outcome : Outcome
  overrun : Bool
  deriving DecidableEq, Repr

/-- The packet assembled at lines 218-225: the header built from the current
`seq_num`, `timestamp` and `ssrc`, followed by the payload; `sendto` is given
its first `sizeof(header) + payload_size` bytes. -/
def RTPStreamer.mediaDatagram (le : Bool) (s : RTPStreamer) (payload : List Nat) : Datagram :=
  let header := RTPHeader.create le s.seq_num s.timestamp s.ssrc
  let packet := header.bytes le ++ payload
  let packet_size := sizeof_rtp_header + payload.length
  { sock := .rtp_sockfd, bytes := packet.take packet_size }

/-- The state update of lines 231-234: `seq_num++` on an `unsigned short`,
`timestamp += PCM_FRAME_SIZE`, `packet_count++` and
`octet_count += payload_size` on `unsigned int`. -/
def RTPStreamer.advance (s : RTPStreamer) (payload_size : Nat) : RTPStreamer :=
  { seq_num := (s.seq_num + 1) % 65536
    timestamp := (s.timestamp + PCM_FRAME_SIZE) % 4294967296
    ssrc := s.ssrc
    packet_count := (s.packet_count + 1) % 4294967296
    octet_count := (s.octet_count + payload_size) % 4294967296 }

/-- The sender report of lines 237-239, built from the counters as they
stand when it is called and from the clock reading. -/
def RTPStreamer.reportDatagram (le : Bool) (s : RTPStreamer) (now : timespec) : Datagram :=
  let sr := RTCPSenderReport.create le s.ssrc s.timestamp s.packet_count s.octet_count now
  { sock := .rtcp_sockfd, bytes := sr.bytes le }

/-- The member function `RTPStreamer::sendRTPPacket` (lines 217-244).
`payload` holds the `payload_size` bytes the caller passes (`payload_size` is
an `int`; `main` passes the positive byte count `opus_encode` returned).  The
statements are followed in source order; the body has no test of
`payload_size` against the 1500-byte `packet` array, so for a payload longer
than 1488 bytes the second `memcpy` runs past the array, which `overrun`
records.  The two `std::cout` lines are not modelled. -/
def RTPStreamer.sendRTPPacket (le : Bool) (s : RTPStreamer) (payload : List Nat)
    (env : Env) : Result :=
  let overrun := decide (1500 < sizeof_rtp_header + payload.length)
  if env.rtp_sendto < 0 then
    { state := s, sent := [], outcome := .threw "RTP 패킷 전송 오류", overrun := overrun }
  else
    let s1 := s.advance payload.length
    if s1.packet_count % 50 = 0 then
      if env.rtcp_sendto < 0 then
        { state := s1, sent := [s.mediaDatagram le payload],
          outcome := .threw "RTCP SR 전송 오류", overrun := overrun }
      else
        { state := s1, sent := [s.mediaDatagram le payload, s1.reportDatagram le env.now],
          outcome := .returned, overrun := overrun }
    else
      { state := s1, sent := [s.mediaDatagram le payload], outcome := .returned,
        overrun := overrun }

/-- One encoded frame handed to `sendRTPPacket`, with the environment of
that call. -/
structure Call where
  payload : List Nat
  env : Env
  deriving DecidableEq, Repr

/-- The sending loop of `main` (lines 262-274) over the frames that were
captured and encoded: one `sendRTPPacket` call per frame, in order; the first
exception leaves the loop (line 276). -/
def stream (le : Bool) : RTPStreamer → List Call → Result
  | s, [] => { state := s, sent := [], outcome := .returned, overrun := false }
  | s, c :: cs =>
    let r := s.sendRTPPacket le c.payload c.env
    match r.outcome with
    | .returned =>
      let r2 := stream le r.state cs
      { state := r2.state, sent := r.sent ++ r2.sent, outcome := r2.outcome,
        overrun := r.overrun || r2.overrun }
    | .threw _ => r

/-- The result of call number `k` of the loop, counting from 0:
`sendRTPPacket` run on the state the first `k` calls left behind. -/
def callResult (le : Bool) (s : RTPStreamer) (calls : List Call) (k : Nat) : Option Result :=
  calls[k]?.map (fun c =>
    (stream le s (calls.take k)).state.sendRTPPacket le c.payload c.env)

/-- Number of datagrams of a trace that went to the given socket. -/
def countSock (k : Sock) (ds : List Datagram) : Nat :=
  (ds.filter (fun d => d.sock = k)).length

/-- Sum of the payload sizes of a list of calls. -/
def payloadBytes (cs : List Call) : Nat := (cs.map (fun c => c.payload.length)).sum

/-- An environment in which both sockets accept the datagram (`sendto`
returns the number of bytes, here not inspected beyond its sign). -/
def Env.accepting (now : timespec) : Env :=
  { rtp_sendto := 0, rtcp_sendto := 0, now := now }

/-! ## Byte-order lemmas -/

theorem swap16_bytes (a b : Nat) (ha : a < 256) (hb : b < 256) :
    (a * 256 + b) % 256 = b ∧ (a * 256 + b) / 256 % 256 = a := by
  constructor <;> omega

theorem swap32_bytes (a b c d : Nat) (ha : a < 256) (hb : b < 256) (hc : c < 256)
    (hd : d < 256) :
    (a * 16777216 + b * 65536 + c * 256 + d) % 256 = d ∧
    (a * 16777216 + b * 65536 + c * 256 + d) / 256 % 256 = c ∧
    (a * 16777216 + b * 65536 + c * 256 + d) / 65536 % 256 = b ∧
    (a * 16777216 + b * 65536 + c * 256 + d) / 16777216 % 256 = a := by
  refine ⟨?_, ?_, ?_, ?_⟩ <;> omega

/-- A 16-bit field assigned through `htons` lies in memory in network order,
whatever the host byte order. -/
theorem storeU16_htons (le : Bool) (v : Nat) : storeU16 le (htons le v) = be16 v := by
  cases le
  · simp only [storeU16, htons, be16, if_false, Bool.false_eq_true,
      List.cons.injEq, and_true]
    constructor <;> omega
  · have h := swap16_bytes (v % 256) (v / 256 % 256) (Nat.mod_lt _ (by decide))
      (Nat.mod_lt _ (by decide))
    simp only [storeU16, htons, be16, if_true, h.1, h.2]

/-- A 32-bit field assigned through `htonl` lies in memory in network order,
whatever the host byte order. -/
theorem storeU32_htonl (le : Bool) (v : Nat) : storeU32 le (htonl le v) = be32 v := by
  cases le
  · simp only [storeU32, htonl, be32, if_false, Bool.false_eq_true,
      List.cons.injEq, and_true]
    refine ⟨?_, ?_, ?_, ?_⟩ <;> omega
  · have h := swap32_bytes (v % 256) (v / 256 % 256) (v / 65536 % 256) (v / 16777216 % 256)
      (Nat.mod_lt _ (by decide)) (Nat.mod_lt _ (by decide)) (Nat.mod_lt _ (by decide))
      (Nat.mod_lt _ (by decide))
    simp only [storeU32, htonl, be32, if_true, h.1, h.2.1, h.2.2.1, h.2.2.2]

theorem fromBE_be16 (v : Nat) (h : v < 65536) : fromBE (be16 v) = v := by
  simp only [fromBE, be16, List.foldl]; omega

theorem fromBE_be32 (v : Nat) (h : v < 4294967296) : fromBE (be32 v) = v := by
  simp only [fromBE, be32, List.foldl]; omega

/-- The memory image of the header `RTPHeader::create` fills in. -/
theorem rtp_header_bytes_create (le : Bool) (seq ts ssrc : Nat) :
    (RTPHeader.create le seq ts ssrc).bytes le
      = [128, 111] ++ be16 seq ++ be32 ts ++ be32 ssrc := by
  have h0 : (RTPHeader.create le seq ts ssrc).octet0 le = 128 := by
    cases le <;> rfl
  have h1 : (RTPHeader.create le seq ts ssrc).octet1 le = 111 := by
    cases le <;> rfl
  rw [rtp_header.bytes, h0, h1]
  simp only [RTPHeader.create, storeU16_htons, storeU32_htonl]

/-- The memory image of the report `RTCPSenderReport::create` fills in. -/
theorem rtcp_sr_bytes_create (le : Bool) (ssrc ts pc oc : Nat) (now : timespec) :
    (RTCPSenderReport.create le ssrc ts pc oc now).bytes le
      = [128, 200, 0, 6] ++ be32 ssrc
        ++ be32 ((ntp_time now >>> 32) % 4294967296)
        ++ be32 ((ntp_time now &&& 4294967295) % 4294967296)
        ++ be32 ts ++ be32 pc ++ be32 oc := by
  have h0 : (RTCPSenderReport.create le ssrc ts pc oc now).octet0 le = 128 := by
    cases le <;> rfl
  rw [rtcp_sr.bytes, h0]
  simp only [RTCPSenderReport.create, storeU16_htons, storeU32_htonl]
  rfl

/-! ## C1: the RTP header is byte-exact -/

/-- C1: for every 16-bit `seq`, 32-bit `timestamp` and 32-bit `ssrc`, the
header `RTPHeader::create` fills in occupies exactly 12 bytes: octet 0 is 0x80
(version 2, padding 0, extension 0, cc 0), octet 1 is 0x6F (marker 0, payload
type 111), octets 2-3 are `seq`, octets 4-7 `timestamp` and octets 8-11 `ssrc`,
each big-endian, on a host of either byte order. -/
theorem RTPHeader_create_wire (le : Bool) (seq ts ssrc : Nat)
    (hseq : seq < 65536) (hts : ts < 4294967296) (hssrc : ssrc < 4294967296) :
    ((RTPHeader.create le seq ts ssrc).bytes le).length = 12 ∧
    (RTPHeader.create le seq ts ssrc).bytes le
      = [0x80, 0x6F] ++ be16 seq ++ be32 ts ++ be32 ssrc ∧
    0x80 = 2 * 64 + 0 * 32 + 0 * 16 + 0 ∧ 0x6F = 0 * 128 + 111 ∧
    ((RTPHeader.create le seq ts ssrc).version, (RTPHeader.create le seq ts ssrc).p,
      (RTPHeader.create le seq ts ssrc).x, (RTPHeader.create le seq ts ssrc).cc,
      (RTPHeader.create le seq ts ssrc).m, (RTPHeader.create le seq ts ssrc).pt)
      = (2, 0, 0, 0, 0, 111) ∧
    fromBE (be16 seq) = seq ∧ fromBE (be32 ts) = ts ∧ fromBE (be32 ssrc) = ssrc := by
  refine ⟨?_, rtp_header_bytes_create le seq ts ssrc, rfl, rfl, rfl,
    fromBE_be16 seq hseq, fromBE_be32 ts hts, fromBE_be32 ssrc hssrc⟩
  rw [rtp_header_bytes_create]; rfl

/-- C1, the specification's example: `seq = 1`, `timestamp = 0`,
`ssrc = 12345` give `80 6F 00 01 00 00 00 00 00 00 30 39`. -/
theorem RTPHeader_create_wire_witness :
    (RTPHeader.create true 1 0 12345).bytes true
      = [0x80, 0x6F, 0x00, 0x01, 0x00, 0x00, 0x00, 0x00, 0x00, 0x00, 0x30, 0x39] ∧
    (RTPHeader.create false 1 0 12345).bytes false
      = [0x80, 0x6F, 0x00, 0x01, 0x00, 0x00, 0x00, 0x00, 0x00, 0x00, 0x30, 0x39] :=
  ⟨(RTPHeader_create_wire true 1 0 12345 (by decide) (by decide) (by decide)).2.1,
   (RTPHeader_create_wire false 1 0 12345 (by decide) (by decide) (by decide)).2.1⟩

/-! ## C5: the NTP timestamp of a sender report -/

/-- The two halves of `ntp_time` for a clock reading whose NTP seconds fit in
32 bits and whose nanoseconds are below one second. -/
theorem ntp_time_eq (sec nsec : Int) (hs0 : 0 ≤ sec + 2208988800)
    (hs1 : sec + 2208988800 < 4294967296) (hn0 : 0 ≤ nsec) (hn1 : nsec < 1000000000) :
    ntp_time ⟨sec, nsec⟩
      = 2 ^ 32 * (sec + 2208988800).toNat + (nsec * 4294967296 / 1000000000).toNat ∧
    (nsec * 4294967296 / 1000000000).toNat < 2 ^ 32 ∧
    toU64 nsec * 4294967296 < 18446744073709551616 := by
  have hS : (toU64 sec + 2208988800) % 18446744073709551616 = (sec + 2208988800).toNat := by
    unfold toU64; omega
  have hN : toU64 nsec = nsec.toNat := by unfold toU64; omega
  have hF : nsec.toNat * 4294967296 % 18446744073709551616 / 1000000000
      = (nsec * 4294967296 / 1000000000).toNat := by
    rw [Nat.mod_eq_of_lt (by omega)]
    have h1 : ((nsec.toNat * 4294967296 / 1000000000 : Nat) : Int)
        = nsec * 4294967296 / 1000000000 := by
      rw [Int.ofNat_ediv, Int.ofNat_mul, Int.toNat_of_nonneg hn0]; rfl
    omega
  have hlt : (nsec * 4294967296 / 1000000000).toNat < 2 ^ 32 := by
    norm_num; omega
  have hSlt : (sec + 2208988800).toNat < 4294967296 := by omega
  refine ⟨?_, hlt, by rw [hN]; omega⟩
  simp only [ntp_time]
  rw [hS, hN, hF, Nat.shiftLeft_eq, Nat.mod_eq_of_lt (by omega), Nat.mul_comm,
    Nat.mul_add_lt_is_or hlt]

theorem split_hi_lo (S F : Nat) (hS : S < 4294967296) (hF : F < 4294967296) :
    (4294967296 * S + F) / 4294967296 % 4294967296 = S ∧
    (4294967296 * S + F) % 4294967296 % 4294967296 = F := by
  constructor <;> omega

/-- C5: for every clock reading `(sec, nsec)` with `0 ≤ nsec < 10^9` whose NTP
seconds `sec + 2208988800` are a 32-bit value, the report written by
`RTCPSenderReport::create` carries on the wire, big-endian, the seconds
`sec + 2208988800` in octets 8-11 and the fraction
`floor(nsec * 2^32 / 10^9)` in octets 12-15.  The fraction is below `2^32`, the
64-bit product `nsec * 2^32` does not overflow, and the bitwise OR of the two
halves is their sum, so the seconds are not disturbed. -/
theorem RTCPSenderReport_create_ntp (le : Bool) (ssrc ts pc oc : Nat) (sec nsec : Int)
    (hn0 : 0 ≤ nsec) (hn1 : nsec < 1000000000)
    (hs0 : 0 ≤ sec + 2208988800) (hs1 : sec + 2208988800 < 4294967296) :
    (fromBE ((((RTCPSenderReport.create le ssrc ts pc oc ⟨sec, nsec⟩).bytes le).drop 8).take 4)
        : Int) = sec + 2208988800 ∧
    (fromBE ((((RTCPSenderReport.create le ssrc ts pc oc ⟨sec, nsec⟩).bytes le).drop 12).take 4)
        : Int) = nsec * 4294967296 / 1000000000 ∧
    nsec * 4294967296 / 1000000000 < 4294967296 ∧
    toU64 nsec * 4294967296 < 18446744073709551616 ∧
    (ntp_time ⟨sec, nsec⟩ : Int)
      = 4294967296 * (sec + 2208988800) + nsec * 4294967296 / 1000000000 := by
  obtain ⟨hntp, hlt, hprod⟩ := ntp_time_eq sec nsec hs0 hs1 hn0 hn1
  have hlt2 : (nsec * 4294967296 / 1000000000).toNat < 4294967296 := by
    simpa using hlt
  have hSlt : (sec + 2208988800).toNat < 4294967296 := by omega
  have hmsw : (ntp_time ⟨sec, nsec⟩ >>> 32) % 4294967296 = (sec + 2208988800).toNat := by
    rw [hntp, Nat.shiftRight_eq_div_pow]
    exact (split_hi_lo _ _ hSlt hlt2).1
  have hlsw : (ntp_time ⟨sec, nsec⟩ &&& 4294967295) % 4294967296
      = (nsec * 4294967296 / 1000000000).toNat := by
    have h := Nat.and_pow_two_sub_one_eq_mod (ntp_time ⟨sec, nsec⟩) 32
    norm_num at h
    rw [h, hntp]
    exact (split_hi_lo _ _ hSlt hlt2).2
  have hF0 : 0 ≤ nsec * 4294967296 / 1000000000 := by omega
  rw [rtcp_sr_bytes_create, hmsw, hlsw]
  refine ⟨?_, ?_, by omega, hprod, ?_⟩
  · have h : fromBE ((([128, 200, 0, 6] ++ be32 ssrc ++ be32 (sec + 2208988800).toNat
        ++ be32 (nsec * 4294967296 / 1000000000).toNat ++ be32 ts ++ be32 pc
        ++ be32 oc).drop 8).take 4) = fromBE (be32 (sec + 2208988800).toNat) := rfl
    rw [h, fromBE_be32 _ hSlt]
    omega
  · have h : fromBE ((([128, 200, 0, 6] ++ be32 ssrc ++ be32 (sec + 2208988800).toNat
        ++ be32 (nsec * 4294967296 / 1000000000).toNat ++ be32 ts ++ be32 pc
        ++ be32 oc).drop 12).take 4) = fromBE (be32 (nsec * 4294967296 / 1000000000).toNat) :=
      rfl
    rw [h, fromBE_be32 _ hlt2]
    omega
  · rw [hntp]
    push_cast
    omega

/-- C5, the specification's example: `sec = 1700000000`, `nsec = 500000000`
give the seconds 3908988800 and the fraction 2147483648. -/
theorem RTCPSenderReport_create_ntp_witness :
    (fromBE ((((RTCPSenderReport.create true 12345 0 0 0
        ⟨1700000000, 500000000⟩).bytes true).drop 8).take 4) : Int) = 3908988800 ∧
    (fromBE ((((RTCPSenderReport.create true 12345 0 0 0
        ⟨1700000000, 500000000⟩).bytes true).drop 12).take 4) : Int) = 2147483648 := by
  have h := RTCPSenderReport_create_ntp true 12345 0 0 0 1700000000 500000000
    (by decide) (by decide) (by decide) (by decide)
  exact ⟨h.1.trans (by decide), h.2.1.trans (by decide)⟩

/-! ## C6: the sender report is byte-exact -/

/-- C6: for every 32-bit `ssrc`, `rtp_timestamp`, `packet_count`, `octet_count`
and every clock reading, the report `RTCPSenderReport::create` fills in
occupies exactly 28 bytes: octet 0 is 0x80 (version 2, padding 0, report count
0), octet 1 is 200, octets 2-3 are `00 06` (28/4 - 1), followed by `ssrc`, the
NTP seconds (high word of `ntp_time`), the NTP fraction (low word), the
`rtp_timestamp`, the `packet_count` and the `octet_count`, each as a 4-byte
big-endian integer in that order, on a host of either byte order. -/
theorem RTCPSenderReport_create_wire (le : Bool) (ssrc ts pc oc : Nat) (now : timespec)
    (hssrc : ssrc < 4294967296) (hts : ts < 4294967296) (hpc : pc < 4294967296)
    (hoc : oc < 4294967296) :
    ((RTCPSenderReport.create le ssrc ts pc oc now).bytes le).length = 28 ∧
    (RTCPSenderReport.create le ssrc ts pc oc now).bytes le
      = [0x80, 200, 0x00, 0x06] ++ be32 ssrc
        ++ be32 ((ntp_time now >>> 32) % 4294967296)
        ++ be32 ((ntp_time now &&& 0xFFFFFFFF) % 4294967296)
        ++ be32 ts ++ be32 pc ++ be32 oc ∧
    0x80 = 2 * 64 + 0 * 32 + 0 ∧ 6 = 28 / 4 - 1 ∧
    ((RTCPSenderReport.create le ssrc ts pc oc now).version,
      (RTCPSenderReport.create le ssrc ts pc oc now).p,
      (RTCPSenderReport.create le ssrc ts pc oc now).rc,
      (RTCPSenderReport.create le ssrc ts pc oc now).pt) = (2, 0, 0, 200) ∧
    fromBE (be32 ssrc) = ssrc ∧ fromBE (be32 ts) = ts ∧ fromBE (be32 pc) = pc ∧
    fromBE (be32 oc) = oc := by
  refine ⟨?_, rtcp_sr_bytes_create le ssrc ts pc oc now, rfl, rfl, rfl,
    fromBE_be32 ssrc hssrc, fromBE_be32 ts hts, fromBE_be32 pc hpc, fromBE_be32 oc hoc⟩
  rw [rtcp_sr_bytes_create]; rfl

/-- C6 at `ssrc = 12345`, `rtp_timestamp = 57600`, `packet_count = 50`,
`octet_count = 8000` and the clock reading `(1700000000, 500000000)`. -/
theorem RTCPSenderReport_create_wire_witness :
    (RTCPSenderReport.create true 12345 57600 50 8000 ⟨1700000000, 500000000⟩).bytes true
      = [0x80, 0xC8, 0x00, 0x06, 0x00, 0x00, 0x30, 0x39, 0xE8, 0xFE, 0x6F, 0x80,
         0x80, 0x00, 0x00, 0x00, 0x00, 0x00, 0xE1, 0x00, 0x00, 0x00, 0x00, 0x32,
         0x00, 0x00, 0x1F, 0x40] :=
  (RTCPSenderReport_create_wire true 12345 57600 50 8000 ⟨1700000000, 500000000⟩
    (by decide) (by decide) (by decide) (by decide)).2.1.trans (by decide)

/-! ## One call of `sendRTPPacket` -/

/-- A call returns normally exactly when the media `sendto` did not fail and,
if a report was due, neither did the control `sendto`. -/
theorem sendRTPPacket_returned_iff (le : Bool) (s : RTPStreamer) (payload : List Nat)
    (env : Env) :
    (s.sendRTPPacket le payload env).outcome = .returned ↔
      0 ≤ env.rtp_sendto ∧
        ((s.advance payload.length).packet_count % 50 = 0 → 0 ≤ env.rtcp_sendto) := by
  unfold RTPStreamer.sendRTPPacket
  by_cases h1 : env.rtp_sendto < 0
  · simp [h1]
  · by_cases h2 : (s.advance payload.length).packet_count % 50 = 0
    · by_cases h3 : env.rtcp_sendto < 0
      · simp [h1, h2, h3]
      · simp [h1, h2, h3]; omega
    · simp [h1, h2]; omega

/-- What a call that returns normally leaves behind. -/
theorem sendRTPPacket_returned (le : Bool) (s : RTPStreamer) (payload : List Nat)
    (env : Env) (h : (s.sendRTPPacket le payload env).outcome = .returned) :
    (s.sendRTPPacket le payload env).state = s.advance payload.length ∧
    (s.sendRTPPacket le payload env).sent
      = s.mediaDatagram le payload ::
          (if (s.advance payload.length).packet_count % 50 = 0
            then [(s.advance payload.length).reportDatagram le env.now] else []) := by
  unfold RTPStreamer.sendRTPPacket at h ⊢
  by_cases h1 : env.rtp_sendto < 0
  · simp [h1] at h
  · by_cases h2 : (s.advance payload.length).packet_count % 50 = 0
    · by_cases h3 : env.rtcp_sendto < 0
      · simp [h1, h2, h3] at h
      · simp [h1, h2, h3]
    · simp [h1, h2]

theorem advance_inRange (s : RTPStreamer) (n : Nat) (hs : s.InRange) :
    (s.advance n).InRange := by
  obtain ⟨_, _, h3, _, _⟩ := hs
  refine ⟨Nat.mod_lt _ (by decide), Nat.mod_lt _ (by decide), h3,
    Nat.mod_lt _ (by decide), Nat.mod_lt _ (by decide)⟩

/-- The media datagram is the 12-byte header followed by the payload. -/
theorem mediaDatagram_bytes (le : Bool) (s : RTPStreamer) (payload : List Nat) :
    (s.mediaDatagram le payload).sock = .rtp_sockfd ∧
    (s.mediaDatagram le payload).bytes
      = [128, 111] ++ be16 s.seq_num ++ be32 s.timestamp ++ be32 s.ssrc ++ payload ∧
    (s.mediaDatagram le payload).bytes.length = 12 + payload.length := by
  have hb : (s.mediaDatagram le payload).bytes
      = [128, 111] ++ be16 s.seq_num ++ be32 s.timestamp ++ be32 s.ssrc ++ payload := by
    simp only [RTPStreamer.mediaDatagram, rtp_header_bytes_create, sizeof_rtp_header]
    apply List.take_of_length_le
    simp [be16, be32]
    omega
  refine ⟨rfl, hb, ?_⟩
  rw [hb]
  simp [be16, be32]
  omega

/-! ## The sending loop -/

theorem stream_cons_returned (le : Bool) (s : RTPStreamer) (c : Call) (cs : List Call)
    (h : (stream le s (c :: cs)).outcome = .returned) :
    (s.sendRTPPacket le c.payload c.env).outcome = .returned ∧
    (stream le (s.advance c.payload.length) cs).outcome = .returned ∧
    (stream le s (c :: cs)).state = (stream le (s.advance c.payload.length) cs).state ∧
    (stream le s (c :: cs)).sent
      = (s.sendRTPPacket le c.payload c.env).sent
          ++ (stream le (s.advance c.payload.length) cs).sent := by
  cases hr : (s.sendRTPPacket le c.payload c.env).outcome with
  | threw w => simp [stream, hr] at h
  | returned =>
    have hst := (sendRTPPacket_returned le s c.payload c.env hr).1
    simp only [stream, hr, hst] at h ⊢
    exact ⟨trivial, h, trivial, trivial⟩

/-- The counters after a run of the loop that ended without an exception. -/
theorem stream_returned_state (le : Bool) (calls : List Call) :
    ∀ s : RTPStreamer, s.InRange → (stream le s calls).outcome = .returned →
      (stream le s calls).state =
        { seq_num := (s.seq_num + calls.length) % 65536
          timestamp := (s.timestamp + calls.length * 1152) % 4294967296
          ssrc := s.ssrc
          packet_count := (s.packet_count + calls.length) % 4294967296
          octet_count := (s.octet_count + payloadBytes calls) % 4294967296 } := by
  induction calls with
  | nil =>
    intro s hs _
    obtain ⟨h1, h2, _, h4, h5⟩ := hs
    cases s
    simp only [stream, payloadBytes, List.length_nil, List.map_nil, List.sum_nil,
      Nat.add_zero, Nat.zero_mul] at *
    simp [Nat.mod_eq_of_lt, h1, h2, h4, h5]
  | cons c cs ih =>
    intro s hs h
    obtain ⟨_, h2, h3, _⟩ := stream_cons_returned le s c cs h
    rw [h3, ih _ (advance_inRange s _ hs) h2]
    simp only [RTPStreamer.advance, PCM_FRAME_SIZE, payloadBytes, List.length_cons,
      List.map_cons, List.sum_cons, RTPStreamer.mk.injEq]
    refine ⟨?_, ?_, trivial, ?_, ?_⟩ <;> omega

/-- Number of media transmissions of a run that ended without an exception. -/
theorem stream_returned_media (le : Bool) (calls : List Call) :
    ∀ s : RTPStreamer, (stream le s calls).outcome = .returned →
      countSock .rtp_sockfd (stream le s calls).sent = calls.length := by
  induction calls with
  | nil => intro s _; rfl
  | cons c cs ih =>
    intro s h
    obtain ⟨h1, h2, _, h4⟩ := stream_cons_returned le s c cs h
    have ih2 := ih _ h2
    rw [h4, (sendRTPPacket_returned le s c.payload c.env h1).2]
    unfold countSock at ih2 ⊢
    by_cases hd : (s.advance c.payload.length).packet_count % 50 = 0
    · simp [hd, List.filter_cons, RTPStreamer.mediaDatagram, RTPStreamer.reportDatagram, ih2]
    · simp [hd, List.filter_cons, RTPStreamer.mediaDatagram, ih2]

/-- Number of control reports of a run that ended without an exception, as
long as `packet_count` does not wrap during the run. -/
theorem stream_returned_reports (le : Bool) (calls : List Call) :
    ∀ s : RTPStreamer, s.packet_count + calls.length < 4294967296 →
      (stream le s calls).outcome = .returned →
      countSock .rtcp_sockfd (stream le s calls).sent
        = (s.packet_count + calls.length) / 50 - s.packet_count / 50 := by
  induction calls with
  | nil => intro s _ _; simp [stream, countSock]
  | cons c cs ih =>
    intro s hb h
    obtain ⟨h1, h2, _, h4⟩ := stream_cons_returned le s c cs h
    have hpc : (s.advance c.payload.length).packet_count = s.packet_count + 1 := by
      simp only [RTPStreamer.advance, List.length_cons] at hb ⊢
      omega
    have ih2 := ih (s.advance c.payload.length)
      (by rw [hpc]; simp only [List.length_cons] at hb; omega) h2
    rw [h4, (sendRTPPacket_returned le s c.payload c.env h1).2]
    unfold countSock at ih2 ⊢
    rw [hpc] at ih2 ⊢
    by_cases hd : (s.packet_count + 1) % 50 = 0
    · simp [hd, List.filter_cons, RTPStreamer.mediaDatagram, RTPStreamer.reportDatagram, ih2]
      omega
    · simp [hd, List.filter_cons, RTPStreamer.mediaDatagram, ih2]
      omega

/-- The loop unrolled once, when the first call returns normally. -/
theorem stream_cons_of_returned (le : Bool) (s : RTPStreamer) (c : Call) (cs : List Call)
    (h : (s.sendRTPPacket le c.payload c.env).outcome = .returned) :
    (stream le s (c :: cs)).outcome = (stream le (s.advance c.payload.length) cs).outcome ∧
    (stream le s (c :: cs)).state = (stream le (s.advance c.payload.length) cs).state ∧
    (stream le s (c :: cs)).sent
      = (s.sendRTPPacket le c.payload c.env).sent
          ++ (stream le (s.advance c.payload.length) cs).sent := by
  have hst := (sendRTPPacket_returned le s c.payload c.env h).1
  simp only [stream, h, hst]
  exact ⟨trivial, trivial, trivial⟩

/-- A run that ended without an exception splits at any point into two such
runs, the second starting where the first stopped. -/
theorem stream_append_returned (le : Bool) (xs ys : List Call) :
    ∀ s : RTPStreamer, (stream le s (xs ++ ys)).outcome = .returned →
      (stream le s xs).outcome = .returned ∧
      (stream le (stream le s xs).state ys).outcome = .returned ∧
      (stream le s (xs ++ ys)).state = (stream le (stream le s xs).state ys).state ∧
      (stream le s (xs ++ ys)).sent
        = (stream le s xs).sent ++ (stream le (stream le s xs).state ys).sent := by
  induction xs with
  | nil => intro s h; exact ⟨rfl, h, rfl, rfl⟩
  | cons c cs ih =>
    intro s h
    rw [List.cons_append] at h ⊢
    obtain ⟨h1, h2, h3, h4⟩ := stream_cons_returned le s c (cs ++ ys) h
    obtain ⟨i1, i2, i3, i4⟩ := ih _ h2
    obtain ⟨j1, j2, j3⟩ := stream_cons_of_returned le s c cs h1
    rw [j1, j2, j3, h3, h4, i4, List.append_assoc]
    exact ⟨i1, i2, i3, rfl⟩

/-- Two runs without an exception compose into one. -/
theorem stream_append_of_returned (le : Bool) (xs ys : List Call) :
    ∀ s : RTPStreamer, (stream le s xs).outcome = .returned →
      (stream le s (xs ++ ys)).outcome = (stream le (stream le s xs).state ys).outcome ∧
      (stream le s (xs ++ ys)).state = (stream le (stream le s xs).state ys).state ∧
      (stream le s (xs ++ ys)).sent
        = (stream le s xs).sent ++ (stream le (stream le s xs).state ys).sent := by
  induction xs with
  | nil => intro s _; exact ⟨rfl, rfl, rfl⟩
  | cons c cs ih =>
    intro s h
    obtain ⟨h1, h2, h3, h4⟩ := stream_cons_returned le s c cs h
    obtain ⟨i1, i2, i3⟩ := ih _ h2
    obtain ⟨j1, j2, j3⟩ := stream_cons_of_returned le s c (cs ++ ys) h1
    rw [List.cons_append, j1, j2, j3, h3, h4, i1, i2, i3, List.append_assoc]
    exact ⟨rfl, rfl, rfl⟩

/-- A run in which the transport accepts every datagram ends without an
exception. -/
theorem stream_accepting (le : Bool) (calls : List Call)
    (hacc : ∀ c ∈ calls, 0 ≤ c.env.rtp_sendto ∧ 0 ≤ c.env.rtcp_sendto) :
    ∀ s : RTPStreamer, (stream le s calls).outcome = .returned := by
  induction calls with
  | nil => intro s; rfl
  | cons c cs ih =>
    intro s
    have hc := hacc c (List.mem_cons_self c cs)
    have h1 : (s.sendRTPPacket le c.payload c.env).outcome = .returned :=
      (sendRTPPacket_returned_iff le s c.payload c.env).2 ⟨hc.1, fun _ => hc.2⟩
    rw [(stream_cons_of_returned le s c cs h1).1]
    exact ih (fun c2 h2 => hacc c2 (List.mem_cons_of_mem c h2)) _

/-- Every initial segment of a run that ended without an exception did so
too, and its counters are the initial ones advanced once per call. -/
theorem stream_take_returned (le : Bool) (s : RTPStreamer) (calls : List Call)
    (hs : s.InRange) (h : (stream le s calls).outcome = .returned) (k : Nat)
    (hk : k ≤ calls.length) :
    (stream le s (calls.take k)).outcome = .returned ∧
    (stream le s (calls.take k)).state =
      { seq_num := (s.seq_num + k) % 65536
        timestamp := (s.timestamp + k * 1152) % 4294967296
        ssrc := s.ssrc
        packet_count := (s.packet_count + k) % 4294967296
        octet_count := (s.octet_count + payloadBytes (calls.take k)) % 4294967296 } := by
  have h0 := h
  rw [← List.take_append_drop k calls] at h0
  obtain ⟨h1, _, _, _⟩ := stream_append_returned le _ _ s h0
  have hst := stream_returned_state le (calls.take k) s hs h1
  have hlen : (calls.take k).length = k := by
    rw [List.length_take]; omega
  rw [hlen] at hst
  exact ⟨h1, hst⟩

/-- Call number `k` of a run that ended without an exception: it returned
normally, started from the counters advanced `k` times, and transmitted the
media packet followed, when due, by the report. -/
theorem callResult_returned (le : Bool) (s : RTPStreamer) (calls : List Call)
    (hs : s.InRange) (h : (stream le s calls).outcome = .returned)
    (k : Nat) (hk : k < calls.length) :
    ∃ r : Result, callResult le s calls k = some r ∧ r.outcome = .returned ∧
      (stream le s (calls.take k)).state =
        { seq_num := (s.seq_num + k) % 65536
          timestamp := (s.timestamp + k * 1152) % 4294967296
          ssrc := s.ssrc
          packet_count := (s.packet_count + k) % 4294967296
          octet_count := (s.octet_count + payloadBytes (calls.take k)) % 4294967296 } ∧
      r.state =
        { seq_num := (s.seq_num + (k + 1)) % 65536
          timestamp := (s.timestamp + (k + 1) * 1152) % 4294967296
          ssrc := s.ssrc
          packet_count := (s.packet_count + (k + 1)) % 4294967296
          octet_count := (s.octet_count + payloadBytes (calls.take (k + 1))) % 4294967296 } ∧
      r.state = (stream le s (calls.take k)).state.advance calls[k].payload.length ∧
      r.sent = (stream le s (calls.take k)).state.mediaDatagram le calls[k].payload ::
        (if r.state.packet_count % 50 = 0
          then [r.state.reportDatagram le calls[k].env.now] else []) := by
  have hsplit : calls = calls.take k ++ (calls[k] :: calls.drop (k + 1)) := by
    rw [← List.drop_eq_getElem_cons hk, List.take_append_drop]
  have h0 := h
  rw [hsplit] at h0
  obtain ⟨h1, h2, _, _⟩ := stream_append_returned le _ _ s h0
  obtain ⟨h3, _, _, _⟩ := stream_cons_returned le _ _ _ h2
  have hst := (stream_take_returned le s calls hs h k (by omega)).2
  have hst1 := (stream_take_returned le s calls hs h (k + 1) (by omega)).2
  obtain ⟨g1, g2⟩ := sendRTPPacket_returned le _ _ _ h3
  have htake : calls.take (k + 1) = calls.take k ++ [calls[k]] := by
    rw [List.take_succ, List.getElem?_eq_getElem hk]; rfl
  have hnext : (stream le s (calls.take (k + 1))).state
      = (stream le s (calls.take k)).state.advance calls[k].payload.length := by
    rw [htake, (stream_append_of_returned le _ [calls[k]] s h1).2.1,
      (stream_cons_of_returned le _ _ [] h3).2.1]
    rfl
  refine ⟨_, ?_, h3, hst, ?_, g1, ?_⟩
  · simp only [callResult, List.getElem?_eq_getElem hk, Option.map_some']
  · rw [g1, ← hnext, hst1]
  · rw [g2, g1]

theorem init_inRange (rnd : Nat) : (RTPStreamer.init rnd).InRange := by
  refine ⟨Nat.mod_lt _ (by decide), ?_, ?_, ?_, ?_⟩ <;>
    simp only [RTPStreamer.init] <;> omega

/-- Octets 2-3 of a media datagram are the big-endian `seq_num` of the state
it was built from. -/
theorem mediaDatagram_seq (le : Bool) (s : RTPStreamer) (payload : List Nat) :
    ((s.mediaDatagram le payload).bytes.drop 2).take 2 = be16 s.seq_num := by
  rw [(mediaDatagram_bytes le s payload).2.1]
  rfl

/-! ## C7: the sequence number -/

/-- C7: for every session state, a successful `sendRTPPacket` call transmits a
header whose octets 2-3 are the current `seq_num` (big-endian) and then sets
`seq_num` to `(seq_num + 1) mod 65536`; hence in a run of successful calls
started at `seq0` the call number `k` (from 0, the `k+1`-th packet) carries
`(seq0 + k) mod 65536`, and the header built right after one carrying 65535
carries 0. -/
theorem sendRTPPacket_seq_num (le : Bool) (s : RTPStreamer) (hs : s.InRange) :
    (∀ (payload : List Nat) (env : Env),
      (s.sendRTPPacket le payload env).outcome = .returned →
        (∃ rest, (s.sendRTPPacket le payload env).sent = s.mediaDatagram le payload :: rest) ∧
        (s.mediaDatagram le payload).sock = .rtp_sockfd ∧
        ((s.mediaDatagram le payload).bytes.drop 2).take 2 = be16 s.seq_num ∧
        fromBE (be16 s.seq_num) = s.seq_num ∧
        (s.sendRTPPacket le payload env).state.seq_num = (s.seq_num + 1) % 65536 ∧
        (s.seq_num = 65535 → ∀ next : List Nat,
          (((s.sendRTPPacket le payload env).state.mediaDatagram le next).bytes.drop 2).take 2
            = be16 0)) ∧
    (∀ calls : List Call, (stream le s calls).outcome = .returned →
      ∀ k : Nat, k < calls.length →
        ∃ (r : Result) (d : Datagram) (rest : List Datagram),
          callResult le s calls k = some r ∧ r.outcome = .returned ∧
          r.sent = d :: rest ∧ d.sock = .rtp_sockfd ∧
          (d.bytes.drop 2).take 2 = be16 ((s.seq_num + k) % 65536) ∧
          fromBE (be16 ((s.seq_num + k) % 65536)) = (s.seq_num + k) % 65536 ∧
          r.state.seq_num = (s.seq_num + (k + 1)) % 65536) := by
  constructor
  · intro payload env h
    obtain ⟨g1, g2⟩ := sendRTPPacket_returned le s payload env h
    refine ⟨⟨_, g2⟩, rfl, mediaDatagram_seq le s payload, fromBE_be16 _ hs.1, ?_, ?_⟩
    · rw [g1]; rfl
    · intro h65 next
      rw [mediaDatagram_seq, g1]
      simp only [RTPStreamer.advance, h65]
  · intro calls h k hk
    obtain ⟨r, hr, hret, hst, hst1, _, hsent⟩ := callResult_returned le s calls hs h k hk
    refine ⟨r, _, _, hr, hret, hsent, rfl, ?_, fromBE_be16 _ (Nat.mod_lt _ (by decide)), ?_⟩
    · rw [mediaDatagram_seq, hst]
    · rw [hst1]

/-- C7 at the wrap: a session at `seq_num = 65535` sends `FF FF` in octets 2-3,
moves to `seq_num = 0`, and the next header carries `00 00`. -/
theorem sendRTPPacket_seq_num_witness :
    (((RTPStreamer.mk 65535 0 12345 0 0).mediaDatagram true [7]).bytes.drop 2).take 2
      = [0xFF, 0xFF] ∧
    ((RTPStreamer.mk 65535 0 12345 0 0).sendRTPPacket true [7]
      (Env.accepting ⟨0, 0⟩)).state.seq_num = 0 ∧
    (((((RTPStreamer.mk 65535 0 12345 0 0).sendRTPPacket true [7]
      (Env.accepting ⟨0, 0⟩)).state.mediaDatagram true [8]).bytes.drop 2).take 2)
      = [0x00, 0x00] := by
  have h := (sendRTPPacket_seq_num true (RTPStreamer.mk 65535 0 12345 0 0) (by decide)).1
    [7] (Env.accepting ⟨0, 0⟩) (by decide)
  exact ⟨h.2.2.1, h.2.2.2.2.1, h.2.2.2.2.2 rfl [8]⟩

/-! ## Counting along a run -/

theorem countSock_append (k : Sock) (a b : List Datagram) :
    countSock k (a ++ b) = countSock k a + countSock k b := by
  simp [countSock, List.filter_append]

theorem payloadBytes_const (p : Nat) (calls : List Call)
    (hsz : ∀ c ∈ calls, c.payload.length = p) : payloadBytes calls = calls.length * p := by
  induction calls with
  | nil => simp [payloadBytes]
  | cons c cs ih =>
    have h1 := hsz c (List.mem_cons_self c cs)
    have h2 := ih (fun c2 h => hsz c2 (List.mem_cons_of_mem c h))
    simp only [payloadBytes, List.map_cons, List.sum_cons, List.length_cons] at h2 ⊢
    rw [h1, h2, Nat.add_mul, Nat.one_mul, Nat.add_comm]

theorem sendRTPPacket_overrun (le : Bool) (s : RTPStreamer) (payload : List Nat) (env : Env) :
    (s.sendRTPPacket le payload env).overrun = decide (1500 < 12 + payload.length) := by
  unfold RTPStreamer.sendRTPPacket
  simp only [sizeof_rtp_header]
  split
  · rfl
  · split
    · split <;> rfl
    · rfl

/-- No call of a run writes past `packet` when every payload is at most 1488
bytes long. -/
theorem stream_overrun_false (le : Bool) (calls : List Call)
    (hsz : ∀ c ∈ calls, c.payload.length ≤ 1488) :
    ∀ s : RTPStreamer, (stream le s calls).overrun = false := by
  induction calls with
  | nil => intro s; rfl
  | cons c cs ih =>
    intro s
    have h1 := hsz c (List.mem_cons_self c cs)
    have h2 := ih (fun c2 h => hsz c2 (List.mem_cons_of_mem c h))
    have h3 : (s.sendRTPPacket le c.payload c.env).overrun = false := by
      rw [sendRTPPacket_overrun]
      exact decide_eq_false (by omega)
    cases hr : (s.sendRTPPacket le c.payload c.env).outcome with
    | threw w => simp only [stream, hr, h3]
    | returned => simp only [stream, hr, h3, h2, Bool.or_self]

/-- Every media datagram of a run that ended without an exception is 12 bytes
longer than the payload of one of the calls. -/
theorem stream_media_length (le : Bool) (calls : List Call) :
    ∀ s : RTPStreamer, (stream le s calls).outcome = .returned →
      ∀ d ∈ (stream le s calls).sent, d.sock = .rtp_sockfd →
        ∃ c ∈ calls, d.bytes.length = 12 + c.payload.length := by
  induction calls with
  | nil => intro s _ d hd; simp [stream] at hd
  | cons c cs ih =>
    intro s h d hd hsock
    obtain ⟨h1, h2, _, h4⟩ := stream_cons_returned le s c cs h
    rw [h4, (sendRTPPacket_returned le s c.payload c.env h1).2] at hd
    rcases List.mem_append.1 hd with hd1 | hd2
    · rcases List.mem_cons.1 hd1 with e | hrep
      · exact ⟨c, List.mem_cons_self c cs, by rw [e, (mediaDatagram_bytes le s c.payload).2.2]⟩
      · exfalso
        split at hrep
        · rw [List.mem_singleton] at hrep
          rw [hrep] at hsock
          simp [RTPStreamer.reportDatagram] at hsock
        · simp at hrep
    · obtain ⟨c2, hc2, hl⟩ := ih _ h2 d hd2 hsock
      exact ⟨c2, List.mem_cons_of_mem c hc2, hl⟩

/-! ## C8: constant-size frames -/

/-- C8: for every payload size `p` with `0 < p ≤ 1488` and every `N` with
`N * p < 2^32`, `N` successful `sendRTPPacket` calls of payload size `p` on a
fresh session perform exactly `N` media transmissions, each of `12 + p` bytes,
and end with `packet_count = N` and `octet_count = N * p` (payload bytes only);
`N / 50` control reports are transmitted (10 for `N = 500`) and no call writes
past the 1500-byte packet buffer. -/
theorem stream_constant_payload (le : Bool) (rnd p N : Nat) (calls : List Call)
    (hp0 : 0 < p) (hp1 : p ≤ 1488) (hN : N * p < 4294967296)
    (hlen : calls.length = N) (hsz : ∀ c ∈ calls, c.payload.length = p)
    (h : (stream le (RTPStreamer.init rnd) calls).outcome = .returned) :
    countSock .rtp_sockfd (stream le (RTPStreamer.init rnd) calls).sent = N ∧
    (∀ d ∈ (stream le (RTPStreamer.init rnd) calls).sent,
      d.sock = .rtp_sockfd → d.bytes.length = 12 + p) ∧
    (stream le (RTPStreamer.init rnd) calls).state.packet_count = N ∧
    (stream le (RTPStreamer.init rnd) calls).state.octet_count = N * p ∧
    countSock .rtcp_sockfd (stream le (RTPStreamer.init rnd) calls).sent = N / 50 ∧
    (N = 500 → countSock .rtcp_sockfd (stream le (RTPStreamer.init rnd) calls).sent = 10) ∧
    (stream le (RTPStreamer.init rnd) calls).overrun = false := by
  have hNlt : N < 4294967296 := by
    have : N ≤ N * p := Nat.le_mul_of_pos_right N hp0
    omega
  have hst := stream_returned_state le calls _ (init_inRange rnd) h
  have hrep := stream_returned_reports le calls (RTPStreamer.init rnd)
    (by simp only [RTPStreamer.init]; omega) h
  have hrep2 : countSock .rtcp_sockfd (stream le (RTPStreamer.init rnd) calls).sent = N / 50 := by
    rw [hrep, hlen]
    simp only [RTPStreamer.init]
    omega
  refine ⟨?_, ?_, ?_, ?_, hrep2, ?_, ?_⟩
  · rw [stream_returned_media le calls _ h, hlen]
  · intro d hd hsock
    obtain ⟨c, hc, hl⟩ := stream_media_length le calls _ h d hd hsock
    rw [hl, hsz c hc]
  · rw [hst, hlen]
    simp only [RTPStreamer.init]
    omega
  · rw [hst, payloadBytes_const p calls hsz, hlen]
    simp only [RTPStreamer.init]
    omega
  · intro h500
    rw [hrep2, h500]
  · exact stream_overrun_false le calls (fun c hc => by rw [hsz c hc]; exact hp1) _

/-- C8, the specification's example: 500 frames of 160 bytes give 500 media
transmissions, 10 control reports, `packet_count = 500` and
`octet_count = 500 * 160`. -/
theorem stream_constant_payload_witness :
    countSock .rtp_sockfd (stream true (RTPStreamer.init 0)
      (List.replicate 500 ⟨List.replicate 160 0, Env.accepting ⟨0, 0⟩⟩)).sent = 500 ∧
    countSock .rtcp_sockfd (stream true (RTPStreamer.init 0)
      (List.replicate 500 ⟨List.replicate 160 0, Env.accepting ⟨0, 0⟩⟩)).sent = 10 ∧
    (stream true (RTPStreamer.init 0)
      (List.replicate 500 ⟨List.replicate 160 0, Env.accepting ⟨0, 0⟩⟩)).state.packet_count
        = 500 ∧
    (stream true (RTPStreamer.init 0)
      (List.replicate 500 ⟨List.replicate 160 0, Env.accepting ⟨0, 0⟩⟩)).state.octet_count
        = 500 * 160 := by
  have hmem : ∀ c ∈ List.replicate 500 (Call.mk (List.replicate 160 0) (Env.accepting ⟨0, 0⟩)),
      c = Call.mk (List.replicate 160 0) (Env.accepting ⟨0, 0⟩) :=
    fun c hc => List.eq_of_mem_replicate hc
  have h := stream_constant_payload true 0 160 500
    (List.replicate 500 ⟨List.replicate 160 0, Env.accepting ⟨0, 0⟩⟩)
    (by decide) (by decide) (by decide) (List.length_replicate _ _)
    (fun c hc => by rw [hmem c hc]; exact List.length_replicate _ _)
    (stream_accepting true _ (fun c hc => by rw [hmem c hc]; decide) _)
  exact ⟨h.1, h.2.2.2.2.2.1 rfl, h.2.2.1, h.2.2.2.1⟩

/-! ## C4: report cadence -/

/-- C4, amended: for every `N < 2^32`, after `N` successful `sendRTPPacket`
calls on a freshly created session exactly `floor(N / 50)` control reports have
been transmitted; call number `k` (from 0, so the `k+1`-th call) transmits a
report exactly when `50` divides `k + 1`, and that report is the one
`RTCPSenderReport::create` builds from the counters after that call's state
advance: packet count `k + 1`, octet count the sum of the first `k + 1`
payload sizes modulo `2^32`, and the media timestamp as it then stands. -/
theorem report_cadence (le : Bool) (rnd : Nat) (calls : List Call)
    (hN : calls.length < 4294967296)
    (h : (stream le (RTPStreamer.init rnd) calls).outcome = .returned) :
    countSock .rtcp_sockfd (stream le (RTPStreamer.init rnd) calls).sent
      = calls.length / 50 ∧
    ∀ (k : Nat) (hk : k < calls.length),
      ∃ (r : Result) (media : Datagram),
        callResult le (RTPStreamer.init rnd) calls k = some r ∧
        r.outcome = .returned ∧ media.sock = .rtp_sockfd ∧
        r.state.packet_count = k + 1 ∧
        r.state.octet_count = payloadBytes (calls.take (k + 1)) % 4294967296 ∧
        ((k + 1) % 50 = 0 →
          r.sent = [media,
            { sock := .rtcp_sockfd
              bytes := (RTCPSenderReport.create le 12345 r.state.timestamp
                (k + 1) (payloadBytes (calls.take (k + 1)) % 4294967296)
                calls[k].env.now).bytes le }]) ∧
        ((k + 1) % 50 ≠ 0 → r.sent = [media]) := by
  constructor
  · rw [stream_returned_reports le calls (RTPStreamer.init rnd)
      (by simp only [RTPStreamer.init]; omega) h]
    simp only [RTPStreamer.init]
    omega
  · intro k hk
    obtain ⟨r, hr, hret, _, hst1, _, hsent⟩ :=
      callResult_returned le _ calls (init_inRange rnd) h k hk
    have hpc : r.state.packet_count = k + 1 := by
      rw [hst1]; simp only [RTPStreamer.init]; omega
    have hoc : r.state.octet_count = payloadBytes (calls.take (k + 1)) % 4294967296 := by
      rw [hst1]; simp only [RTPStreamer.init, Nat.zero_add]
    have hssrc : r.state.ssrc = 12345 := by
      rw [hst1]; rfl
    refine ⟨r, (stream le (RTPStreamer.init rnd) (calls.take k)).state.mediaDatagram le
      calls[k].payload, hr, hret, rfl, hpc, hoc, ?_, ?_⟩
    · intro hdue
      rw [hsent, hpc, if_pos hdue]
      simp only [RTPStreamer.reportDatagram, hpc, hoc, hssrc]
    · intro hnot
      rw [hsent, hpc, if_neg hnot]

/-- C4, amended, at 50 one-byte frames: one report, sent by the 50th call, whose
last eight octets are packet count 50 and octet count 50. -/
theorem report_cadence_witness :
    countSock .rtcp_sockfd (stream true (RTPStreamer.init 0)
      (List.replicate 50 ⟨[0], Env.accepting ⟨1700000000, 500000000⟩⟩)).sent = 1 ∧
    ∃ (r : Result) (media report : Datagram),
      callResult true (RTPStreamer.init 0)
        (List.replicate 50 ⟨[0], Env.accepting ⟨1700000000, 500000000⟩⟩) 49 = some r ∧
      r.sent = [media, report] ∧ report.sock = .rtcp_sockfd ∧
      report.bytes.length = 28 ∧
      report.bytes.drop 20 = [0x00, 0x00, 0x00, 0x32, 0x00, 0x00, 0x00, 0x32] := by
  have h := report_cadence true 0
    (List.replicate 50 ⟨[0], Env.accepting ⟨1700000000, 500000000⟩⟩) (by decide)
    (stream_accepting true _
      (fun c hc => by rw [List.eq_of_mem_replicate hc]; decide) _)
  refine ⟨h.1, ?_⟩
  obtain ⟨r, media, h1, _, _, _, _, h7, _⟩ := h.2 49 (by decide)
  refine ⟨r, media, _, h1, h7 (by decide), rfl, ?_, ?_⟩
  · rw [rtcp_sr_bytes_create]; rfl
  · rw [rtcp_sr_bytes_create]; rfl

/-- A run of `n + 1 = 2^32` calls accepted by the transport: the last call
wraps `packet_count` to 0 and therefore emits one more report. -/
theorem stream_report_at_wrap (le : Bool) (c : Call)
    (hc : 0 ≤ c.env.rtp_sendto ∧ 0 ≤ c.env.rtcp_sendto) (rnd n : Nat)
    (hn : n + 1 = 4294967296) :
    (stream le (RTPStreamer.init rnd) (List.replicate (n + 1) c)).outcome = .returned ∧
    countSock .rtcp_sockfd (stream le (RTPStreamer.init rnd) (List.replicate (n + 1) c)).sent
      = n / 50 + 1 ∧
    (stream le (RTPStreamer.init rnd) (List.replicate (n + 1) c)).state.packet_count = 0 := by
  have hacc : ∀ m : Nat, ∀ c2 ∈ List.replicate m c,
      0 ≤ c2.env.rtp_sendto ∧ 0 ≤ c2.env.rtcp_sendto :=
    fun m c2 h2 => by rw [List.eq_of_mem_replicate h2]; exact hc
  have hall := stream_accepting le _ (hacc (n + 1)) (RTPStreamer.init rnd)
  have hpre := stream_accepting le _ (hacc n) (RTPStreamer.init rnd)
  have hst := stream_returned_state le _ _ (init_inRange rnd) hpre
  have hrep := stream_returned_reports le (List.replicate n c) (RTPStreamer.init rnd)
    (by simp only [RTPStreamer.init, List.length_replicate]; omega) hpre
  have hfull := stream_returned_state le _ _ (init_inRange rnd) hall
  rw [List.length_replicate] at hst hrep hfull
  refine ⟨hall, ?_, ?_⟩
  · have hlast : (stream le (stream le (RTPStreamer.init rnd) (List.replicate n c)).state
        [c]).outcome = .returned := stream_accepting le [c] (hacc 1) _
    obtain ⟨k1, _, _, k4⟩ := stream_cons_returned le _ c [] hlast
    obtain ⟨_, g2⟩ := sendRTPPacket_returned le _ _ _ k1
    have hdue : ((stream le (RTPStreamer.init rnd) (List.replicate n c)).state.advance
        c.payload.length).packet_count % 50 = 0 := by
      rw [hst]
      simp only [RTPStreamer.advance, RTPStreamer.init]
      omega
    rw [List.replicate_succ', (stream_append_of_returned le _ [c] _ hpre).2.2,
      countSock_append, hrep, k4, g2, if_pos hdue]
    have : countSock .rtcp_sockfd
        (((stream le (RTPStreamer.init rnd) (List.replicate n c)).state.mediaDatagram le
            c.payload ::
          [((stream le (RTPStreamer.init rnd) (List.replicate n c)).state.advance
            c.payload.length).reportDatagram le c.env.now])
          ++ (stream le ((stream le (RTPStreamer.init rnd) (List.replicate n c)).state.advance
            c.payload.length) []).sent) = 1 := rfl
    rw [this]
    simp only [RTPStreamer.init]
    omega
  · rw [hfull]
    simp only [RTPStreamer.init]
    omega

/-- The last call of a run of `n + 1 = 2^32` calls accepted by the transport:
it transmits a report built from `packet_count = 0` and from the octet total
reduced modulo `2^32`. -/
theorem callResult_at_wrap (le : Bool) (c : Call)
    (hc : 0 ≤ c.env.rtp_sendto ∧ 0 ≤ c.env.rtcp_sendto) (rnd n : Nat)
    (hn : n + 1 = 4294967296) :
    ∃ (r : Result) (media : Datagram),
      callResult le (RTPStreamer.init rnd) (List.replicate (n + 1) c) n = some r ∧
      r.outcome = .returned ∧ media.sock = .rtp_sockfd ∧
      r.state.packet_count = 0 ∧
      r.state.octet_count = (n + 1) * c.payload.length % 4294967296 ∧
      r.sent = [media, r.state.reportDatagram le c.env.now] ∧
      payloadBytes (List.replicate (n + 1) c) = (n + 1) * c.payload.length := by
  have hall := stream_accepting le (List.replicate (n + 1) c)
    (fun c2 h2 => by rw [List.eq_of_mem_replicate h2]; exact hc) (RTPStreamer.init rnd)
  have hk : n < (List.replicate (n + 1) c).length := by
    rw [List.length_replicate]; omega
  have hsum : ∀ m : Nat, payloadBytes (List.replicate m c) = m * c.payload.length := by
    intro m
    rw [payloadBytes_const c.payload.length _
      (fun c2 h2 => by rw [List.eq_of_mem_replicate h2]), List.length_replicate]
  obtain ⟨r, hr, hret, _, hst1, _, hsent⟩ :=
    callResult_returned le _ _ (init_inRange rnd) hall n hk
  have hget : (List.replicate (n + 1) c)[n] = c := List.getElem_replicate c hk
  have htake : (List.replicate (n + 1) c).take (n + 1) = List.replicate (n + 1) c :=
    List.take_of_length_le (by rw [List.length_replicate])
  rw [htake, hsum] at hst1
  rw [hget] at hsent
  have hpc : r.state.packet_count = 0 := by
    rw [hst1]; simp only [RTPStreamer.init]; omega
  have hoc : r.state.octet_count = (n + 1) * c.payload.length % 4294967296 := by
    rw [hst1]; simp only [RTPStreamer.init, Nat.zero_add]
  refine ⟨r,
    (stream le (RTPStreamer.init rnd)
      ((List.replicate (n + 1) c).take n)).state.mediaDatagram le c.payload,
    hr, hret, rfl, hpc, hoc, ?_, hsum _⟩
  rw [hsent, hpc]
  rfl

/-- C4 fails at `N = 2^32`: on a fresh session, `2^32` successful calls with
one-byte payloads transmit 85899346 control reports, one more than
`floor(2^32 / 50) = 85899345`.  The `2^32`-th call wraps `packet_count` to 0,
and since `0 % 50 == 0` it emits a report although 50 does not divide `2^32`;
that report carries packet count 0 and octet count 0, not `2^32` and the sum
`2^32` of the payload sizes. -/
theorem report_cadence_counterexample :
    (stream true (RTPStreamer.init 0)
      (List.replicate 4294967296 ⟨[0], Env.accepting ⟨0, 0⟩⟩)).outcome = .returned ∧
    countSock .rtcp_sockfd (stream true (RTPStreamer.init 0)
      (List.replicate 4294967296 ⟨[0], Env.accepting ⟨0, 0⟩⟩)).sent = 85899346 ∧
    4294967296 / 50 = 85899345 ∧ 4294967296 % 50 ≠ 0 ∧
    payloadBytes (List.replicate 4294967296 ⟨[0], Env.accepting ⟨0, 0⟩⟩) = 4294967296 ∧
    ∃ (r : Result) (media : Datagram),
      callResult true (RTPStreamer.init 0)
        (List.replicate 4294967296 ⟨[0], Env.accepting ⟨0, 0⟩⟩) 4294967295 = some r ∧
      r.outcome = .returned ∧
      r.state.packet_count = 0 ∧ r.state.octet_count = 0 ∧
      r.sent = [media, r.state.reportDatagram true ⟨0, 0⟩] :=
  have h := stream_report_at_wrap true ⟨[0], Env.accepting ⟨0, 0⟩⟩ (by decide) 0 4294967295 rfl
  match callResult_at_wrap true ⟨[0], Env.accepting ⟨0, 0⟩⟩ (by decide) 0 4294967295 rfl with
  | ⟨r, media, g1, g2, _, g4, g5, g6, g7⟩ =>
    ⟨h.1, h.2.1, rfl, by decide, g7, r, media, g1, g2, g4, g5, g6⟩

/-! ## C9: the counters of a successful call -/

/-- C9, amended: for every session state and payload, a successful
`sendRTPPacket` call sets `packet_count` to `(packet_count + 1) mod 2^32` and
`octet_count` to `(octet_count + payload size) mod 2^32`.  `packet_count` is
strictly greater than before whenever it was below `2^32 - 1`, and
`octet_count` is strictly greater than before whenever the payload is not
empty and `octet_count + payload size` is below `2^32`. -/
theorem sendRTPPacket_counters (le : Bool) (s : RTPStreamer) (payload : List Nat) (env : Env)
    (h : (s.sendRTPPacket le payload env).outcome = .returned) :
    (s.sendRTPPacket le payload env).state.packet_count
      = (s.packet_count + 1) % 4294967296 ∧
    (s.sendRTPPacket le payload env).state.octet_count
      = (s.octet_count + payload.length) % 4294967296 ∧
    (s.packet_count < 4294967295 →
      s.packet_count < (s.sendRTPPacket le payload env).state.packet_count) ∧
    (0 < payload.length → s.octet_count + payload.length < 4294967296 →
      s.octet_count < (s.sendRTPPacket le payload env).state.octet_count) := by
  rw [(sendRTPPacket_returned le s payload env h).1]
  simp only [RTPStreamer.advance]
  refine ⟨trivial, trivial, ?_, ?_⟩
  · intro hlt; omega
  · intro h0 hlt; omega

/-- C9, amended, on the first call of a session with a 160-byte frame. -/
theorem sendRTPPacket_counters_witness :
    ((RTPStreamer.init 0).sendRTPPacket true (List.replicate 160 0)
      (Env.accepting ⟨0, 0⟩)).state.packet_count = 1 ∧
    ((RTPStreamer.init 0).sendRTPPacket true (List.replicate 160 0)
      (Env.accepting ⟨0, 0⟩)).state.octet_count = 160 ∧
    (RTPStreamer.init 0).packet_count
      < ((RTPStreamer.init 0).sendRTPPacket true (List.replicate 160 0)
          (Env.accepting ⟨0, 0⟩)).state.packet_count ∧
    (RTPStreamer.init 0).octet_count
      < ((RTPStreamer.init 0).sendRTPPacket true (List.replicate 160 0)
          (Env.accepting ⟨0, 0⟩)).state.octet_count := by
  have h := sendRTPPacket_counters true (RTPStreamer.init 0) (List.replicate 160 0)
    (Env.accepting ⟨0, 0⟩)
    ((sendRTPPacket_returned_iff _ _ _ _).2 ⟨by decide, fun _ => by decide⟩)
  have hlen : (List.replicate 160 0).length = 160 := List.length_replicate _ _
  rw [hlen] at h
  exact ⟨h.1, h.2.1, h.2.2.1 (by decide), h.2.2.2 (by decide) (by decide)⟩

/-- C9 fails where the 32-bit counters wrap: from `packet_count = 2^32 - 1` and
`octet_count = 2^32 - 1` a successful call with a one-byte payload leaves both
counters at 0, below their previous values. -/
theorem sendRTPPacket_counters_counterexample :
    (RTPStreamer.mk 0 0 12345 4294967295 4294967295).InRange ∧
    ((RTPStreamer.mk 0 0 12345 4294967295 4294967295).sendRTPPacket true [0]
      (Env.accepting ⟨0, 0⟩)).outcome = .returned ∧
    ((RTPStreamer.mk 0 0 12345 4294967295 4294967295).sendRTPPacket true [0]
      (Env.accepting ⟨0, 0⟩)).state.packet_count = 0 ∧
    ((RTPStreamer.mk 0 0 12345 4294967295 4294967295).sendRTPPacket true [0]
      (Env.accepting ⟨0, 0⟩)).state.octet_count = 0 ∧
    ¬ ((RTPStreamer.mk 0 0 12345 4294967295 4294967295).packet_count
        < ((RTPStreamer.mk 0 0 12345 4294967295 4294967295).sendRTPPacket true [0]
            (Env.accepting ⟨0, 0⟩)).state.packet_count) ∧
    ¬ ((RTPStreamer.mk 0 0 12345 4294967295 4294967295).octet_count
        < ((RTPStreamer.mk 0 0 12345 4294967295 4294967295).sendRTPPacket true [0]
            (Env.accepting ⟨0, 0⟩)).state.octet_count) := by
  decide

/-! ## C10: a failed media transmission -/

/-- C10, amended: `sendRTPPacket` advances `seq_num`, `timestamp`,
`packet_count` and `octet_count` only when the transport reports success of the
media transmission.  When `sendto` on the RTP socket fails, the call throws
before the state update: nothing is transmitted and the four counters are
unchanged.  When it succeeds, the state after the call is the advanced state,
whether or not a control report is due and whether or not its transmission
succeeds. -/
theorem sendRTPPacket_media_result (le : Bool) (s : RTPStreamer) (payload : List Nat)
    (env : Env) :
    (env.rtp_sendto < 0 →
      (s.sendRTPPacket le payload env).state = s ∧
      (s.sendRTPPacket le payload env).sent = [] ∧
      (s.sendRTPPacket le payload env).outcome = .threw "RTP 패킷 전송 오류") ∧
    (0 ≤ env.rtp_sendto →
      (s.sendRTPPacket le payload env).state = s.advance payload.length ∧
      ∃ rest, (s.sendRTPPacket le payload env).sent = s.mediaDatagram le payload :: rest) := by
  unfold RTPStreamer.sendRTPPacket
  constructor
  · intro h
    simp only [if_pos h, and_self]
  · intro h
    have h1 : ¬ env.rtp_sendto < 0 := by omega
    simp only [if_neg h1]
    split
    · split
      · exact ⟨rfl, _, rfl⟩
      · exact ⟨rfl, _, rfl⟩
    · exact ⟨rfl, _, rfl⟩

/-- C10, amended, on a fresh session: a failed media `sendto` leaves the
counters as they were, an accepted one advances them. -/
theorem sendRTPPacket_media_result_witness :
    ((RTPStreamer.init 0).sendRTPPacket true [0] ⟨-1, 0, ⟨0, 0⟩⟩).state = RTPStreamer.init 0 ∧
    ((RTPStreamer.init 0).sendRTPPacket true [0] ⟨1, 0, ⟨0, 0⟩⟩).state
      = (RTPStreamer.init 0).advance 1 :=
  ⟨((sendRTPPacket_media_result true (RTPStreamer.init 0) [0] ⟨-1, 0, ⟨0, 0⟩⟩).1
      (by decide)).1,
   ((sendRTPPacket_media_result true (RTPStreamer.init 0) [0] ⟨1, 0, ⟨0, 0⟩⟩).2
      (by decide)).1⟩

/-- C10 fails when the media `sendto` returns -1: the call throws and the state
after it is the state before it, not the advanced state. -/
theorem sendRTPPacket_media_result_counterexample :
    ((RTPStreamer.init 0).sendRTPPacket true [0] ⟨-1, 0, ⟨0, 0⟩⟩).outcome
      = .threw "RTP 패킷 전송 오류" ∧
    ((RTPStreamer.init 0).sendRTPPacket true [0] ⟨-1, 0, ⟨0, 0⟩⟩).sent = [] ∧
    ((RTPStreamer.init 0).sendRTPPacket true [0] ⟨-1, 0, ⟨0, 0⟩⟩).state = RTPStreamer.init 0 ∧
    ((RTPStreamer.init 0).sendRTPPacket true [0] ⟨-1, 0, ⟨0, 0⟩⟩).state
      ≠ (RTPStreamer.init 0).advance 1 ∧
    ((RTPStreamer.init 0).sendRTPPacket true [0] ⟨-1, 0, ⟨0, 0⟩⟩).state
      ≠ ((RTPStreamer.init 0).sendRTPPacket true [0] ⟨1, 0, ⟨0, 0⟩⟩).state := by
  decide

/-! ## C2: the media timestamp -/

/-- C2 at one frame: on a fresh session (timestamp 0) one successful call
carrying one encoded frame of `OPUS_FRAME_SIZE = 480` samples leaves the media
timestamp at `PCM_FRAME_SIZE = 1152`, not at `(0 + 1 * 480) mod 2^32 = 480`. -/
theorem sendRTPPacket_timestamp_one_frame :
    (RTPStreamer.init 0).timestamp = 0 ∧
    ((RTPStreamer.init 0).sendRTPPacket true (List.replicate 160 0)
      (Env.accepting ⟨0, 0⟩)).outcome = .returned ∧
    ((RTPStreamer.init 0).sendRTPPacket true (List.replicate 160 0)
      (Env.accepting ⟨0, 0⟩)).state.timestamp = 1152 ∧
    (0 + 1 * OPUS_FRAME_SIZE) % 4294967296 = 480 ∧
    ((RTPStreamer.init 0).sendRTPPacket true (List.replicate 160 0)
      (Env.accepting ⟨0, 0⟩)).state.timestamp ≠ (0 + 1 * OPUS_FRAME_SIZE) % 4294967296 := by
  have hret : ((RTPStreamer.init 0).sendRTPPacket true (List.replicate 160 0)
      (Env.accepting ⟨0, 0⟩)).outcome = .returned :=
    (sendRTPPacket_returned_iff _ _ _ _).2 ⟨by decide, fun _ => by decide⟩
  have hts : ((RTPStreamer.init 0).sendRTPPacket true (List.replicate 160 0)
      (Env.accepting ⟨0, 0⟩)).state.timestamp = 1152 := by
    rw [(sendRTPPacket_returned _ _ _ _ hret).1]; rfl
  refine ⟨rfl, hret, hts, by decide, ?_⟩
  rw [hts]; decide

/-! ## C3: a payload that does not fit the packet buffer -/

/-- C3 at a 1500-byte payload: `sendRTPPacket` raises no error.  The copy of
12 + 1500 bytes runs past the 1500-byte `packet` array, a datagram of 1512
bytes is handed to `sendto`, and when the transport accepts it the call
returns normally with `seq_num`, `timestamp`, `packet_count` and `octet_count`
advanced. -/
theorem sendRTPPacket_oversized_payload :
    ((RTPStreamer.init 0).sendRTPPacket true (List.replicate 1500 0)
      (Env.accepting ⟨0, 0⟩)).outcome = .returned ∧
    ((RTPStreamer.init 0).sendRTPPacket true (List.replicate 1500 0)
      (Env.accepting ⟨0, 0⟩)).overrun = true ∧
    ((RTPStreamer.init 0).sendRTPPacket true (List.replicate 1500 0)
      (Env.accepting ⟨0, 0⟩)).sent
        = [(RTPStreamer.init 0).mediaDatagram true (List.replicate 1500 0)] ∧
    ((RTPStreamer.init 0).mediaDatagram true (List.replicate 1500 0)).bytes.length = 1512 ∧
    MAX_PACKET_SIZE < ((RTPStreamer.init 0).mediaDatagram true
      (List.replicate 1500 0)).bytes.length ∧
    ((RTPStreamer.init 0).sendRTPPacket true (List.replicate 1500 0)
      (Env.accepting ⟨0, 0⟩)).state = (RTPStreamer.init 0).advance 1500 ∧
    (RTPStreamer.init 0).packet_count = 0 ∧ (RTPStreamer.init 0).octet_count = 0 ∧
    ((RTPStreamer.init 0).sendRTPPacket true (List.replicate 1500 0)
      (Env.accepting ⟨0, 0⟩)).state.packet_count = 1 ∧
    ((RTPStreamer.init 0).sendRTPPacket true (List.replicate 1500 0)
      (Env.accepting ⟨0, 0⟩)).state.octet_count = 1500 ∧
    ((RTPStreamer.init 0).sendRTPPacket true (List.replicate 1500 0)
      (Env.accepting ⟨0, 0⟩)).state ≠ RTPStreamer.init 0 := by
  have hret : ((RTPStreamer.init 0).sendRTPPacket true (List.replicate 1500 0)
      (Env.accepting ⟨0, 0⟩)).outcome = .returned :=
    (sendRTPPacket_returned_iff _ _ _ _).2 ⟨by decide, fun _ => by decide⟩
  obtain ⟨g1, g2⟩ := sendRTPPacket_returned _ _ _ _ hret
  have hlen : ((RTPStreamer.init 0).mediaDatagram true (List.replicate 1500 0)).bytes.length
      = 1512 := by
    rw [(mediaDatagram_bytes _ _ _).2.2, List.length_replicate]
  have hstate : ((RTPStreamer.init 0).sendRTPPacket true (List.replicate 1500 0)
      (Env.accepting ⟨0, 0⟩)).state = (RTPStreamer.init 0).advance 1500 := by
    rw [g1, List.length_replicate]
  refine ⟨hret, ?_, ?_, hlen, ?_, hstate, rfl, rfl, ?_, ?_, ?_⟩
  · rw [sendRTPPacket_overrun, List.length_replicate]; rfl
  · rw [g2, List.length_replicate]; rfl
  · rw [hlen]; decide
  · rw [hstate]; rfl
  · rw [hstate]; rfl
  · rw [hstate]; decide

end RtpOpus
